import Mathlib

/-!
Verification of the lifeOS agentic backend core services against its
natural-language specification, via a shallow embedding of the Python
sources in `agentic_backend/`.

External collaborators (OpenAI embeddings and chat completions, Pinecone,
Supabase, Gmail) are modelled as explicit inputs: the Pinecone index is a
list of stored vectors ordered by descending similarity for the query at
hand, LLM calls are outcome parameters (success with a parsed value, or
failure), and the relational store is explicit state threaded through the
functions.  Python dictionaries whose key sets differ per branch are
modelled as structures with `Option` fields (`none` = key absent).
-/

namespace LifeOS

/-! ## Vector index gateway (`vector_store.py`)

A stored Pinecone record: vector id plus the metadata keys the services
read.  The email-chunk writer (`EmailService._store_chunk_embedding`)
stores no `user_id`, `user` or `content` key; the note writer
(`router.add_note`) stores `user` and `text` but no `user_id`; hence all
metadata fields are optional. -/
structure VecEntry where
  vid : String
  user_id : Option String
  user : Option String
  content : Option String
deriving DecidableEq, Repr

/-- Python truthiness of `s.strip()`: `not s.strip()` is true exactly when
every character of `s` is whitespace. -/
def isBlank (s : String) : Bool :=
  s.data.all (fun c => c.isWhitespace)

/-- VectorStore.search / Pinecone query semantics: apply the metadata
equality filter (a record with no `user_id` key never matches a `user_id`
filter), then return the `top_k` best matches.  The index list is taken
ordered by descending similarity for the query vector, that ranking being
computed by the external service. -/
def vectorSearch (index : List VecEntry) (top_k : Nat) (filter : Option String) :
    List VecEntry :=
  match filter with
  | some uid => (index.filter (fun e => e.user_id == some uid)).take top_k
  | none => index.take top_k

/-! ## Chat service (`services/email_chat_service.py`) -/

/-- An item of the list built by `ChatService._search_content` from a
Pinecone match: `content` is `match.metadata.get("content", "")` and
`user_id` is `match.metadata.get("user_id")`. -/
structure ChatItem where
  id : String
  content : String
  user_id : Option String
deriving DecidableEq, Repr

/-- ChatService._search_content: embed the query (external), query Pinecone
with filter on `user_id`, convert matches to items.  Any failure of the
external calls is caught inside the method and yields `[]`; `ok = false`
models such a failure.  The `content_type` argument is accepted but, as in
the source, plays no role in the search. -/
def search_content (index : List VecEntry) (user_id : String)
    (_content_type : String) (top_k : Nat) (ok : Bool) : List ChatItem :=
  if ok then
    (vectorSearch index top_k (some user_id)).map (fun e =>
      { id := e.vid, content := e.content.getD "", user_id := e.user_id })
  else []

/-- Python str.title for the ASCII strings at hand: a letter is uppercased
when the previous character is not a letter, lowercased otherwise. -/
def pyTitle (s : String) : String :=
  (s.data.foldl
    (fun (acc : List Char × Bool) c =>
      ((if acc.2 then c.toLower else c.toUpper) :: acc.1, c.isAlpha))
    ([], false)).1.reverse.asString

/-- One block of `ChatService._prepare_context`.  The similarity-score line
(a float rendered with two decimals) is display-only, used by no claim, and
is omitted; every other literal is kept.  Since `_search_content` items
carry no `type` key, `item.get('type', content_type)` is always
`content_type`, and the email-chunk writer stores no subject/from/date
metadata, so the `.get` defaults apply. -/
def context_block (i : Nat) (item : ChatItem) (content_type : String) : String :=
  if content_type == "email" then
    "\nEmail " ++ Nat.repr i ++ ":\n- Subject: No subject\n- From: Unknown sender" ++
      "\n- Date: Unknown date\n- Content: " ++
      (if item.content == "" then "No content available" else item.content) ++ "\n"
  else
    "\n" ++ pyTitle content_type ++ " " ++ Nat.repr i ++ ":\n- Type: " ++ content_type ++
      "\n- Content: " ++
      (if item.content == "" then "No content available" else item.content) ++ "\n"

/-- Python `sep.join(parts)`. -/
def join_with (sep : String) : List String → String
  | [] => ""
  | a :: as => as.foldl (fun acc x => acc ++ sep ++ x) a

/-- ChatService._prepare_context: one block per item (1-based numbering),
joined with newlines. -/
def prepare_context (items : List ChatItem) (content_type : String) : String :=
  join_with "\n" ((items.enum).map (fun p => context_block (p.1 + 1) p.2 content_type))

/-- Outcome of the external `llm.ainvoke` call inside
`ChatService._generate_answer`. -/
inductive GenOutcome
  | ok (answer : String)
  | err (msg : String)
deriving DecidableEq, Repr

/-- ChatService._generate_answer: an empty (all-whitespace) context
short-circuits; otherwise the model is invoked and any failure is caught
here, turned into an apologetic answer string. -/
def generate_answer (_question context _user_id content_type : String)
    (g : GenOutcome) : String :=
  if isBlank context then
    "I couldn't find any relevant " ++ content_type ++
      " to answer your question. Please try rephrasing or check if you have content indexed."
  else
    match g with
    | .ok a => a
    | .err e => "Sorry, I encountered an error while generating an answer: " ++ e

/-- The dictionary returned by `ChatService.ask_question`.  Its key set
differs per branch: `context_used` and `content_type` are present only on
the success branch, hence `Option` fields (`none` = key absent). -/
structure AskResult where
  success : Bool
  answer : String
  context_items : List ChatItem
  question : String
  context_used : Option Nat
  content_type : Option String
deriving DecidableEq, Repr

/-- ChatService.ask_question.  In the embedding no modelled operation can
raise (`_search_content` and `_generate_answer` catch their own failures
and `_prepare_context` is pure), so the function is total and the outer
`except` branch is unreachable; it is embedded separately as
`ask_question_except_result`. -/
def ask_question (index : List VecEntry) (user_id question content_type : String)
    (max_context_items : Nat) (searchOk : Bool) (g : GenOutcome) : AskResult :=
  let relevant_items := search_content index user_id content_type max_context_items searchOk
  if relevant_items.isEmpty then
    { success := false
      answer := "I couldn't find any relevant " ++ content_type ++
        " to answer your question. Please try rephrasing your question or check if you have content indexed."
      context_items := []
      question := question
      context_used := none
      content_type := none }
  else
    { success := true
      answer := generate_answer question (prepare_context relevant_items content_type)
        user_id content_type g
      context_items := relevant_items
      question := question
      context_used := some relevant_items.length
      content_type := some content_type }

/-- The dictionary built by the outer `except` handler of
`ChatService.ask_question` (lines 74-81) for an exception with text `e`:
note it, too, carries no `context_used` key. -/
def ask_question_except_result (question e : String) : AskResult :=
  { success := false
    answer := "Sorry, I encountered an error while processing your question: " ++ e
    context_items := []
    question := question
    context_used := none
    content_type := none }

/-! ## Note processor retrieval (`services/note_processor.py`) -/

/-- NoteProcessor.process_note, step 1: the similar-notes retrieval.  The
call `self.vector_store.search(embedding=embedding)` passes no filter, so
the Pinecone query runs unfiltered with the default `top_k = 25`. -/
def note_similar_notes (index : List VecEntry) : List VecEntry :=
  vectorSearch index 25 none

/-! ## Task extractor (`services/task_extractor.py`)

The pydantic models of the structured LLM output.  `strength` is a Python
float that is only parsed, compared and stored, never computed with, so it
is embedded as a rational; pydantic validates types only — `strength`
carries no range constraint. -/

structure DiaryEntry where
  should_log : Bool
  content : String
  mood : Option String
  tags : List String
deriving DecidableEq, Repr

structure CalendarEvent where
  should_create : Bool
  title : String
  description : String
  due_date : Option String
deriving DecidableEq, Repr

structure Reminder where
  should_create : Bool
  title : String
  description : String
  due_date : Option String
deriving DecidableEq, Repr

structure TaskExtractionResult where
  diary : DiaryEntry
  calendar : CalendarEvent
  reminder : Reminder
deriving DecidableEq, Repr

structure IdeaRelationship where
  target_idea_id : Int
  relationship_type : String
  strength : Rat
  reasoning : String
deriving DecidableEq, Repr

/-- A similar note passed into `extract_tasks`; only its `text` metadata is
read (`note.get('text', '')`). -/
structure SimilarNote where
  text : String
deriving DecidableEq, Repr

/-- An existing idea node passed into `find_idea_relationships`. -/
structure IdeaNode where
  id : Int
  content : String
deriving DecidableEq, Repr

/-- The context block `extract_tasks` builds from up to 3 similar notes. -/
def build_similar_context (similar_notes : List SimilarNote) : String :=
  if similar_notes.isEmpty then ""
  else
    "Similar previous notes:\n" ++
      String.join ((similar_notes.take 3).map (fun n => "- " ++ n.text ++ "\n"))

/-- Outcome of the LLM call plus the `OutputFixingParser` parse inside
`TaskExtractor.extract_tasks`: the call itself may raise, the parse may
fail even after the parser's single schema-repair attempt, or a
schema-conforming value is produced. -/
inductive ExtractOutcome
  | callFailed
  | parseFailed
  | parsed (r : TaskExtractionResult)

/-- TaskExtractor._get_default_task_result. -/
def get_default_task_result : TaskExtractionResult :=
  { diary := { should_log := false, content := "", mood := none, tags := [] }
    calendar := { should_create := false, title := "", description := "", due_date := none }
    reminder := { should_create := false, title := "", description := "", due_date := none } }

/-- TaskExtractor.extract_tasks: both failure branches return the default
result; a successful parse is returned as-is.  The note text and similar
notes shape only the prompt sent to the external model. -/
def extract_tasks (_note_text : String) (_similar_notes : List SimilarNote)
    (o : ExtractOutcome) : TaskExtractionResult :=
  match o with
  | .parsed r => r
  | .callFailed => get_default_task_result
  | .parseFailed => get_default_task_result

/-- Outcome of the LLM call plus parse inside
`TaskExtractor.find_idea_relationships`. -/
inductive RelOutcome
  | callFailed
  | parseFailed
  | parsed (rels : List IdeaRelationship)

/-- TaskExtractor.find_idea_relationships: empty `existing_ideas`
short-circuits to `[]` without calling the model; otherwise the parsed
relationship list is returned as-is (the `strength > 0.3` threshold is
stated only in the prompt text), and any call or parse failure yields
`[]`. -/
def find_idea_relationships (_new_idea : String) (existing_ideas : List IdeaNode)
    (o : RelOutcome) : List IdeaRelationship :=
  if existing_ideas.isEmpty then []
  else
    match o with
    | .parsed rels => rels
    | .callFailed => []
    | .parseFailed => []

/-! ## Text chunking service (`services/text_chunking_service.py`) -/

/-- The `ChunkAnalysis` pydantic model inside
`TextChunkingService.summarize_chunk_text`; `importance_score` is
validated to lie in 1..10 by pydantic, embedded as an integer. -/
structure ChunkAnalysis where
  chunk_text : String
  is_promotional : Bool
  timeline : String
  action_items : List String
  tags : List String
  importance_score : Int
  chunk_type : String
deriving DecidableEq, Repr

/-- The `Chunk` dataclass (`types/schema.py`). -/
structure Chunk where
  chunk_type : String
  chunk_id : String
  chunk_text : String
  email_id : String
  type : String
deriving DecidableEq, Repr

/-- Outcome of the LLM call plus `PydanticOutputParser` parse inside
`summarize_chunk_text`; `parsed cs` carries the `chunks` list of the
parsed `ChunkAnalysisBlocks`. -/
inductive ChunkLLMOutcome
  | failed
  | parsed (chunks : List ChunkAnalysis)

/-- Python string slice `s[:n]` (Python strings index by character). -/
def pySlice (s : String) (n : Nat) : String :=
  (s.data.take n).asString

/-- The fallback chunk built in the `except` branch of
`summarize_chunk_text`: `email_text[:500] + "..."` when the text has more
than 500 characters, the whole text otherwise. -/
def fallback_chunk (email_text : String) : ChunkAnalysis :=
  { chunk_text := if email_text.length > 500 then pySlice email_text 500 ++ "..." else email_text
    is_promotional := false
    timeline := ""
    action_items := []
    tags := ["fallback", "summary"]
    importance_score := 5
    chunk_type := "fallback_summary" }

/-- TextChunkingService.summarize_chunk_text: on any call or parse failure,
fall back to the single fallback chunk. -/
def summarize_chunk_text (email_text : String) (o : ChunkLLMOutcome) :
    List ChunkAnalysis :=
  match o with
  | .parsed cs => cs
  | .failed => [fallback_chunk email_text]

/-- The hash preimage used for chunk ids in `TextChunkingService.chunk_text`:
the Python f-string in
`hashlib.sha256(f"(chunk text)_(i)".encode())` interpolates the chunk text
and the 0-based ordinal, separated by an underscore. -/
def chunk_id_preimage (chunk_text : String) (i : Nat) : String :=
  chunk_text ++ "_" ++ Nat.repr i

/-- The conversion loop of `TextChunkingService.chunk_text` (lines
158-175): each analysis at 0-based position `i` becomes a `Chunk` whose id
is the SHA-256 hex digest of the preimage.  SHA-256 itself is an external
primitive, embedded as an abstract function `sha256`; theorems about id
uniqueness assume its injectivity (collision resistance). -/
def convert_chunks (sha256 : String → String) (email_id : String)
    (analyses : List ChunkAnalysis) : List Chunk :=
  (analyses.enum).map (fun p =>
    { chunk_type := p.2.chunk_type
      chunk_id := sha256 (chunk_id_preimage p.2.chunk_text p.1)
      chunk_text := p.2.chunk_text
      email_id := email_id
      type := "email_chunk" })

/-- TextChunkingService.chunk_text: whitespace-only input yields `[]`;
otherwise the text is cleaned (`_clean_text`, a pure regex normalization
kept abstract as `clean` since no claim depends on it), analyzed, and the
analyses converted into `Chunk`s. -/
def chunk_text (text : String) (email_id : String) (clean : String → String)
    (o : ChunkLLMOutcome) (sha256 : String → String) : List Chunk :=
  if isBlank text then []
  else convert_chunks sha256 email_id (summarize_chunk_text (clean text) o)

/-- The chunk ids assigned by `chunk_text`, in order. -/
def chunk_ids (sha256 : String → String) (email_id : String)
    (analyses : List ChunkAnalysis) : List String :=
  (convert_chunks sha256 email_id analyses).map (fun c => c.chunk_id)

/-! ## Email service sync pipeline (`services/email_service.py`)

The Gmail fetch, the Supabase `emails` table and the Pinecone upserts are
externals, modelled respectively as an input message list, a list of rows
in explicit state, and an outcome function. -/

/-- The `User` dataclass fields the sync path reads. -/
structure User where
  id : String
  email : String
  user_name : String
deriving DecidableEq, Repr

/-- A Gmail message after `_parse_email_message` body extraction: its
Gmail id and extracted text content. -/
structure EmailMsg where
  id : String
  content : String
deriving DecidableEq, Repr

/-- The `Email` dataclass fields relevant to sync. -/
structure Email where
  email_id : String
  user_email_id : String
  content : String
deriving DecidableEq, Repr

/-- A row of the Supabase `emails` table (the columns the dedup reads). -/
structure EmailRow where
  email_id : String
  user_email_id : String
deriving DecidableEq, Repr

/-- The `ApiResponse` dataclass (`types/schema.py`). -/
structure ApiResponse where
  success : Bool
  message : String
deriving DecidableEq, Repr

/-- The external state the sync pipeline mutates: the Supabase `emails`
table and the set of vector ids stored in Pinecone. -/
structure SyncState where
  emailRows : List EmailRow
  pinecone : List String
deriving DecidableEq, Repr

/-- Outcomes of the external calls made during email sync:
`chunksOf` is the (LLM-driven, hence external) result of
`text_chunking_service.chunk_text` on an email's text, `storeFail` gives
the error text of a failing Pinecone upsert for a vector id (`none` =
success), and `insertFail` likewise for the Supabase batch insert. -/
structure EmailEnv where
  chunksOf : Email → List Chunk
  storeFail : String → Option String
  insertFail : List Email → Option String

/-- EmailService._get_existing_email_ids: email ids already stored in
Supabase for this owner (`eq("user_email_id", user.email)`). -/
def existing_email_ids (u : User) (st : SyncState) : List String :=
  (st.emailRows.filter (fun r => r.user_email_id == u.email)).map (fun r => r.email_id)

/-- The exclusion step of `EmailService.get_new_emails`: fetched messages
whose id is in `exclude_email_ids` are dropped (Python skips the filter
when the exclusion list is empty, with the same result). -/
def get_new_emails (gmail : List EmailMsg) (exclude : List String) : List EmailMsg :=
  if exclude.isEmpty then gmail
  else gmail.filter (fun m => !(exclude.contains m.id))

/-- EmailService._parse_email_message, restricted to the fields sync uses:
the parsed email is owned by the requesting user. -/
def parse_email (u : User) (m : EmailMsg) : Email :=
  { email_id := m.id, user_email_id := u.email, content := m.content }

/-- The vector id built in `EmailService._store_chunk_embedding`. -/
def vector_id (e : Email) (c : Chunk) : String :=
  "email_" ++ e.email_id ++ "_chunk_" ++ c.chunk_id

/-- EmailService._store_chunk_embedding: embed the chunk text and upsert
one vector; a failing upsert leaves the index unchanged and is caught into
a failure response. -/
def store_chunk_embedding (c : Chunk) (e : Email) (st : SyncState) (env : EmailEnv) :
    SyncState × ApiResponse :=
  match env.storeFail (vector_id e c) with
  | none =>
      ({ st with pinecone := st.pinecone ++ [vector_id e c] },
        { success := true, message := "Chunk embedding stored for " ++ e.email_id })
  | some err =>
      (st, { success := false, message := "Error storing chunk embedding: " ++ err })

/-- The per-chunk loop of `EmailService._process_email_embeddings`: chunks
are stored one at a time and the loop returns the first failure response,
keeping the vectors already stored. -/
def store_chunks (e : Email) (env : EmailEnv) (total : Nat) :
    SyncState → List Chunk → SyncState × ApiResponse
  | st, [] =>
      (st, { success := true
             message := "Successfully processed " ++ Nat.repr total ++
               " chunks for email " ++ e.email_id })
  | st, c :: cs =>
      let r := store_chunk_embedding c e st env
      if r.2.success then store_chunks e env total r.1 cs else r

/-- EmailService._process_email_embeddings: an email with blank text is
skipped successfully; otherwise its chunks are stored one by one, stopping
at the first failure. -/
def process_email_embeddings (e : Email) (st : SyncState) (env : EmailEnv) :
    SyncState × ApiResponse :=
  if isBlank e.content then
    (st, { success := true, message := "No email text found for " ++ e.email_id })
  else
    let chunks := env.chunksOf e
    store_chunks e env chunks.length st chunks

/-- The per-email loop of `EmailService._sync_batch_to_supabase_and_pinecone`:
every email is appended to `batch_data` and then processed; the response of
`_process_email_embeddings` is discarded (the `except` around it only
catches raised exceptions, and `_process_email_embeddings` never raises). -/
def process_batch_emails (env : EmailEnv) : SyncState → List Email → SyncState
  | st, [] => st
  | st, e :: es => process_batch_emails env (process_email_embeddings e st env).1 es

/-- EmailService._sync_batch_to_supabase_and_pinecone: process each email's
embeddings, then insert the whole batch into the Supabase `emails` table;
only a failing insert produces a failure response. -/
def sync_batch_to_supabase_and_pinecone (emails : List Email) (_u : User)
    (st : SyncState) (env : EmailEnv) : SyncState × ApiResponse :=
  let st' := process_batch_emails env st emails
  if emails.isEmpty then
    (st', { success := true, message := "Emails synced to Supabase and Pinecone" })
  else
    match env.insertFail emails with
    | some err =>
        (st', { success := false, message := "Supabase insert error: " ++ err })
    | none =>
        ({ st' with emailRows := st'.emailRows ++
            emails.map (fun e => { email_id := e.email_id, user_email_id := e.user_email_id }) },
          { success := true, message := "Emails synced to Supabase and Pinecone" })

/-- Helper for `batches`: structural recursion on a fuel bounded by the
list length (one batch consumes at least one element when `0 < bs`). -/
def batchesGo (bs : Nat) : Nat → List Email → List (List Email)
  | 0, _ => []
  | _ + 1, [] => []
  | fuel + 1, x :: xs =>
      (x :: xs).take bs :: batchesGo bs fuel ((x :: xs).drop bs)

/-- The fixed-size batching of `sync_emails` (`range(0, len, batch_size)`).
`batches` is only reached with a nonzero `bs`: a zero step makes `range`
raise `ValueError` before any batch is formed, a path modelled explicitly
inside `sync_emails`. -/
def batches (bs : Nat) (xs : List Email) : List (List Email) :=
  batchesGo bs xs.length xs

/-- The batch loop of `sync_emails`: batch results are appended to a local
`errors` list which the function never reads, so only the state threads
through. -/
def run_batches (u : User) (env : EmailEnv) : SyncState → List (List Email) → SyncState
  | st, [] => st
  | st, b :: bs => run_batches u env (sync_batch_to_supabase_and_pinecone b u st env).1 bs

/-- EmailService.sync_emails: fetch Gmail messages excluding ids already
stored for this owner, return early when nothing new, else process in
batches and report success regardless of collected batch errors.  With a
zero `batch_size` and new emails present, Python's
`range(0, len(gmail_emails), 0)` raises `ValueError` before any batch is
processed; the outer exception handler turns it into
`ApiResponse(success=False, message=str(e))` with the state untouched. -/
def sync_emails (u : User) (gmail : List EmailMsg) (st : SyncState) (env : EmailEnv)
    (batch_size : Nat) : SyncState × ApiResponse :=
  let existing := existing_email_ids u st
  let gmail_emails := (get_new_emails gmail existing).map (parse_email u)
  if gmail_emails.isEmpty then
    (st, { success := true, message := "No new emails found in Gmail" })
  else if batch_size = 0 then
    (st, { success := false, message := "range() arg 3 must not be zero" })
  else
    (run_batches u env st (batches batch_size gmail_emails),
      { success := true, message := "Emails synced to Supabase and Pinecone" })

/-! ## Decimal representation helpers

Chunk-id uniqueness (claim C10) rests on the hash preimage
`chunk_text ++ "_" ++ Nat.repr i` determining the position `i`, which
needs that `Nat.repr` is injective and produces no underscore.  Core's
`Nat.toDigits` is fuel-based; `natDigits` is an equivalent proof-friendly
reformulation. -/

/-- Big-endian decimal digit characters of a natural number. -/
def natDigits (n : Nat) : List Char :=
  if _h : n < 10 then [Nat.digitChar n]
  else natDigits (n / 10) ++ [Nat.digitChar (n % 10)]
termination_by n
decreasing_by
  exact Nat.div_lt_self (by omega) (by omega)

/-- Numeric value of a big-endian list of decimal digit characters. -/
def digitsVal (l : List Char) : Nat :=
  l.foldl (fun a c => 10 * a + (c.toNat - 48)) 0

/-! ## Concrete fixtures used by witnesses and counterexamples -/

def fixtureUser : User :=
  { id := "id1", email := "u@example.com", user_name := "U" }

def fixChunk (cid : String) : Chunk :=
  { chunk_type := "summary", chunk_id := cid, chunk_text := "text " ++ cid,
    email_id := "e1", type := "email_chunk" }

def fixEmail : Email :=
  { email_id := "e1", user_email_id := "u@example.com", content := "hello world" }

def gmailFix : List EmailMsg := [{ id := "e1", content := "hello world" }]

def emptyState : SyncState := { emailRows := [], pinecone := [] }

def stateWithE1 : SyncState :=
  { emailRows := [{ email_id := "e1", user_email_id := "u@example.com" }], pinecone := [] }

/-- An environment in which every external call succeeds and chunking
yields three chunks. -/
def envOk : EmailEnv :=
  { chunksOf := fun _ => [fixChunk "c1", fixChunk "c2", fixChunk "c3"]
    storeFail := fun _ => none
    insertFail := fun _ => none }

/-- Like `envOk` but the Pinecone upsert of the second chunk's vector
fails. -/
def envFail : EmailEnv :=
  { chunksOf := fun _ => [fixChunk "c1", fixChunk "c2", fixChunk "c3"]
    storeFail := fun vid => if vid = "email_e1_chunk_c2" then some "boom" else none
    insertFail := fun _ => none }

/-! # Theorems

First, the decimal-representation toolkit behind chunk-id uniqueness. -/

theorem digitChar_ne_underscore (n : Nat) : Nat.digitChar n ≠ '_' := by
  by_cases h : n < 16
  · interval_cases n <;> decide
  · unfold Nat.digitChar
    repeat rw [if_neg (by omega)]
    decide

theorem digitsVal_digitChar (d : Nat) (h : d < 10) : (Nat.digitChar d).toNat - 48 = d := by
  interval_cases d <;> decide

theorem natDigits_of_lt (n : Nat) (h : n < 10) : natDigits n = [Nat.digitChar n] := by
  unfold natDigits
  simp [h]

theorem natDigits_of_ge (n : Nat) (h : ¬ n < 10) :
    natDigits n = natDigits (n / 10) ++ [Nat.digitChar (n % 10)] := by
  conv_lhs => unfold natDigits
  simp [h]

theorem digitsVal_append_singleton (l : List Char) (c : Char) :
    digitsVal (l ++ [c]) = 10 * digitsVal l + (c.toNat - 48) := by
  simp [digitsVal, List.foldl_append]

theorem digitsVal_natDigits (n : Nat) : digitsVal (natDigits n) = n := by
  induction n using Nat.strong_induction_on with
  | _ n ih =>
    by_cases h : n < 10
    · rw [natDigits_of_lt n h]
      simp [digitsVal, digitsVal_digitChar n h]
    · rw [natDigits_of_ge n h, digitsVal_append_singleton,
        ih (n / 10) (Nat.div_lt_self (by omega) (by omega)),
        digitsVal_digitChar (n % 10) (Nat.mod_lt n (by omega))]
      omega

theorem natDigits_inj : Function.Injective natDigits := by
  intro m n h
  have h2 := congrArg digitsVal h
  simpa [digitsVal_natDigits] using h2

theorem natDigits_no_underscore (n : Nat) : ∀ c ∈ natDigits n, c ≠ '_' := by
  induction n using Nat.strong_induction_on with
  | _ n ih =>
    by_cases h : n < 10
    · rw [natDigits_of_lt n h]
      intro c hc
      rw [List.mem_singleton] at hc
      subst hc
      exact digitChar_ne_underscore n
    · rw [natDigits_of_ge n h]
      intro c hc
      rcases List.mem_append.mp hc with h1 | h2
      · exact ih (n / 10) (Nat.div_lt_self (by omega) (by omega)) c h1
      · rw [List.mem_singleton] at h2
        subst h2
        exact digitChar_ne_underscore (n % 10)

theorem toDigitsCore_eq_natDigits (fuel : Nat) :
    ∀ (n : Nat) (ds : List Char), n < fuel →
      Nat.toDigitsCore 10 fuel n ds = natDigits n ++ ds := by
  induction fuel with
  | zero => omega
  | succ f ih =>
    intro n ds h
    by_cases h10 : n / 10 = 0
    · have hn : n < 10 := (Nat.div_eq_zero_iff (by omega)).mp h10
      simp [Nat.toDigitsCore, h10, natDigits_of_lt n hn, Nat.mod_eq_of_lt hn]
    · have hge : ¬ n < 10 := fun hlt => h10 ((Nat.div_eq_zero_iff (by omega)).mpr hlt)
      have hlt : n / 10 < f := by
        have hd : n / 10 < n := Nat.div_lt_self (by omega) (by omega)
        omega
      simp only [Nat.toDigitsCore, h10, if_false]
      rw [ih (n / 10) _ hlt, natDigits_of_ge n hge]
      simp

theorem repr_eq_natDigits (n : Nat) : Nat.repr n = (natDigits n).asString := by
  unfold Nat.repr Nat.toDigits
  rw [toDigitsCore_eq_natDigits (n + 1) n [] (by omega)]
  simp

theorem nat_repr_inj : Function.Injective Nat.repr := by
  intro m n h
  rw [repr_eq_natDigits, repr_eq_natDigits, List.asString_inj] at h
  exact natDigits_inj h

theorem nat_repr_no_underscore (n : Nat) : '_' ∉ (Nat.repr n).data := by
  intro hmem
  rw [repr_eq_natDigits] at hmem
  have hdata : ((natDigits n).asString).data = natDigits n := by
    have h2 := List.toList_asString (natDigits n)
    simpa [String.toList] using h2
  rw [hdata] at hmem
  exact natDigits_no_underscore n '_' hmem rfl

theorem append_cons_inj_of_not_mem (c : Char) :
    ∀ (xs ys u v : List Char), c ∉ xs → c ∉ ys →
      xs ++ c :: u = ys ++ c :: v → xs = ys ∧ u = v := by
  intro xs
  induction xs with
  | nil =>
    intro ys u v _ hys h
    cases ys with
    | nil => simpa using h
    | cons y ys' =>
      simp only [List.nil_append, List.cons_append, List.cons.injEq] at h
      exact absurd (h.1 ▸ List.mem_cons_self y ys') hys
  | cons x xs' ih =>
    intro ys u v hxs hys h
    cases ys with
    | nil =>
      simp only [List.nil_append, List.cons_append, List.cons.injEq] at h
      exact absurd (h.1 ▸ List.mem_cons_self x xs') hxs
    | cons y ys' =>
      simp only [List.cons_append, List.cons.injEq] at h
      obtain ⟨rfl, h2⟩ := h
      have hxs' : c ∉ xs' := fun hm => hxs (List.mem_cons_of_mem x hm)
      have hys' : c ∉ ys' := fun hm => hys (List.mem_cons_of_mem x hm)
      obtain ⟨rfl, rfl⟩ := ih ys' u v hxs' hys' h2
      exact ⟨rfl, rfl⟩

theorem chunk_id_preimage_inj (t t' : String) (i j : Nat)
    (h : chunk_id_preimage t i = chunk_id_preimage t' j) : t = t' ∧ i = j := by
  have hd : t.data ++ '_' :: (Nat.repr i).data = t'.data ++ '_' :: (Nat.repr j).data := by
    have h2 := congrArg String.data h
    simpa [chunk_id_preimage, String.data_append] using h2
  have hrev : (Nat.repr i).data.reverse ++ '_' :: t.data.reverse
      = (Nat.repr j).data.reverse ++ '_' :: t'.data.reverse := by
    have h3 := congrArg List.reverse hd
    simpa [List.reverse_append] using h3
  have hni : '_' ∉ (Nat.repr i).data.reverse := by
    rw [List.mem_reverse]
    exact nat_repr_no_underscore i
  have hnj : '_' ∉ (Nat.repr j).data.reverse := by
    rw [List.mem_reverse]
    exact nat_repr_no_underscore j
  obtain ⟨hr, ht⟩ := append_cons_inj_of_not_mem '_' _ _ _ _ hni hnj hrev
  refine ⟨String.ext (List.reverse_injective ht), ?_⟩
  exact nat_repr_inj (String.ext (List.reverse_injective hr))

/-! ## Blankness helpers for the chat-service proofs -/

theorem isBlank_append (a b : String) : isBlank (a ++ b) = (isBlank a && isBlank b) := by
  simp [isBlank, String.data_append, List.all_append]

theorem isBlank_append_left (a b : String) (h : isBlank a = false) :
    isBlank (a ++ b) = false := by
  rw [isBlank_append, h, Bool.false_and]

theorem isBlank_append_right (a b : String) (h : isBlank b = false) :
    isBlank (a ++ b) = false := by
  rw [isBlank_append, h, Bool.and_false]

theorem context_block_not_blank (i : Nat) (item : ChatItem) (ct : String) :
    isBlank (context_block i item ct) = false := by
  unfold context_block
  split
  · apply isBlank_append_left
    apply isBlank_append_left
    apply isBlank_append_left
    apply isBlank_append_right
    decide
  · apply isBlank_append_left
    apply isBlank_append_left
    apply isBlank_append_left
    apply isBlank_append_left
    apply isBlank_append_right
    decide

theorem join_with_foldl_not_blank (sep : String) (parts : List String) (acc : String)
    (h : isBlank acc = false) :
    isBlank (parts.foldl (fun a x => a ++ sep ++ x) acc) = false := by
  induction parts generalizing acc with
  | nil => simpa using h
  | cons p ps ih =>
    simp only [List.foldl_cons]
    exact ih _ (isBlank_append_left _ _ (isBlank_append_left _ _ h))

theorem prepare_context_not_blank (items : List ChatItem) (ct : String) (h : items ≠ []) :
    isBlank (prepare_context items ct) = false := by
  unfold prepare_context
  cases items with
  | nil => exact absurd rfl h
  | cons a l =>
    simp only [List.enum_cons, List.map_cons, join_with]
    exact join_with_foldl_not_blank _ _ _ (context_block_not_blank _ _ _)

/-! ## Claim C1: owner filtering of similarity queries -/

/-- Claim C1 counterexample: the similar-notes retrieval of
`NoteProcessor.process_note` issues its vector query with no owner filter,
so with an index holding a note of user `alice`, the retrieval performed
while ingesting a note of user `bob` returns `alice`'s chunk — the claim
that every similarity query is owner-filtered and never returns another
user's chunk is false. -/
theorem c1_counterexample :
    ∃ e ∈ note_similar_notes
        [{ vid := "n1", user_id := none, user := some "alice", content := some "alice note" }],
      e.user ≠ some "bob" ∧ e.user_id ≠ some "bob" := by
  decide

/-- Claim C1 (amended): the `ask` retrieval path
(`ChatService._search_content`) does filter by owner — every returned item
carries the requesting user's id in its stored metadata — but the
similar-notes retrieval during note ingestion passes no owner filter and
can return chunks owned by other users. -/
theorem c1_ask_retrieval_owner_scoped (index : List VecEntry) (uid ct : String)
    (k : Nat) (ok : Bool) :
    ∀ item ∈ search_content index uid ct k ok, item.user_id = some uid := by
  intro item hmem
  by_cases hok : ok
  · simp only [search_content, hok, if_true, vectorSearch, List.mem_map] at hmem
    obtain ⟨e, he, rfl⟩ := hmem
    have hf := List.of_mem_filter (List.mem_of_mem_take he)
    simpa using hf
  · simp [search_content, hok] at hmem

/-- Witness for `c1_ask_retrieval_owner_scoped` at a concrete index. -/
theorem c1_ask_retrieval_owner_scoped_witness :
    ({ id := "v1", content := "c", user_id := some "u1" } : ChatItem).user_id = some "u1" :=
  c1_ask_retrieval_owner_scoped
    [{ vid := "v1", user_id := some "u1", user := none, content := some "c" }]
    "u1" "all" 5 true
    { id := "v1", content := "c", user_id := some "u1" } (by decide)

/-! ## Claim C2: generation-model failure handling in ask -/

/-- Claim C2 counterexample: with one retrieved chunk and a failing
generation call, `ask_question` returns `success = true` (the failure is
absorbed inside `_generate_answer`), not the claimed `success = false`. -/
theorem c2_counterexample :
    (ask_question
        [{ vid := "v1", user_id := some "bob", user := none, content := some "hello" }]
        "bob" "q" "all" 5 true (.err "boom")).success = true := by
  decide

/-- Claim C2 (amended): when chunks were retrieved and the generation call
fails, `ask_question` still returns a well-formed result object and never
raises, and its answer is the error-describing string — but `success` is
`true`, because `_generate_answer` catches the failure and returns the
error text as the answer. -/
theorem c2_generation_failure (index : List VecEntry) (uid q ct e : String) (k : Nat)
    (h : search_content index uid ct k true ≠ []) :
    (ask_question index uid q ct k true (.err e)).success = true
    ∧ (ask_question index uid q ct k true (.err e)).answer
        = "Sorry, I encountered an error while generating an answer: " ++ e
    ∧ (ask_question index uid q ct k true (.err e)).context_used
        = some (search_content index uid ct k true).length := by
  have hne : (search_content index uid ct k true).isEmpty = false := by
    simpa [List.isEmpty_iff] using h
  have hblank : isBlank (prepare_context (search_content index uid ct k true) ct) = false :=
    prepare_context_not_blank _ _ h
  unfold ask_question
  simp only [hne, Bool.false_eq_true, if_false, generate_answer, hblank]
  exact ⟨trivial, trivial, trivial⟩

/-- Witness for `c2_generation_failure` at a concrete index. -/
theorem c2_generation_failure_witness :
    search_content
        [{ vid := "v1", user_id := some "bob", user := none, content := some "hello" }]
        "bob" "all" 5 true ≠ []
    ∧ (ask_question
        [{ vid := "v1", user_id := some "bob", user := none, content := some "hello" }]
        "bob" "q" "all" 5 true (.err "boom")).answer
        = "Sorry, I encountered an error while generating an answer: " ++ "boom" :=
  ⟨by decide,
    (c2_generation_failure
      [{ vid := "v1", user_id := some "bob", user := none, content := some "hello" }]
      "bob" "q" "all" "boom" 5 (by decide)).2.1⟩

/-! ## Claim C3: the contextUsed field -/

/-- Claim C3 counterexample: on the zero-chunk failure outcome the returned
dictionary of `ask_question` carries no `context_used` key at all, not
`contextUsed == 0` as claimed. -/
theorem c3_counterexample :
    (ask_question [] "u" "q" "all" 5 true (.ok "hi")).success = false
    ∧ (ask_question [] "u" "q" "all" 5 true (.ok "hi")).context_used ≠ some 0
    ∧ (ask_question [] "u" "q" "all" 5 true (.ok "hi")).context_used = none := by
  decide

/-- Claim C3 (amended): on the success branch `context_used` equals the
number of retrieved chunks included as context, and `success` reflects
non-empty retrieval; on both failure outcomes (zero chunks retrieved, or
the outer exception handler) the result omits the `context_used` key
entirely rather than reporting `0`. -/
theorem c3_context_used (index : List VecEntry) (uid q ct : String) (k : Nat)
    (ok : Bool) (g : GenOutcome) :
    ((ask_question index uid q ct k ok g).context_used
      = if (search_content index uid ct k ok).isEmpty then none
        else some (search_content index uid ct k ok).length)
    ∧ ((ask_question index uid q ct k ok g).success
      = !(search_content index uid ct k ok).isEmpty)
    ∧ ∀ q' e, (ask_question_except_result q' e).context_used = none := by
  unfold ask_question ask_question_except_result
  by_cases h : (search_content index uid ct k ok).isEmpty <;> simp [h]

/-! ## Claim C4: the zero-chunk short-circuit -/

/-- Claim C4 counterexample: retrieval for `bob` on an index holding only
`alice`'s chunk yields zero chunks; `ask_question` then short-circuits but
its result carries no `context_used` key, not the claimed
`contextUsed == 0`. -/
theorem c4_counterexample :
    (ask_question
        [{ vid := "v1", user_id := some "alice", user := none, content := some "x" }]
        "bob" "q" "emails" 5 true (.ok "ans")).context_used ≠ some 0 := by
  decide

/-- Claim C4 (amended): with zero retrieved chunks `ask_question` returns
`success = false` with the explanatory answer naming the searched content
type, never consults the generation model (the result is independent of
the generation outcome), and omits the `context_used` key rather than
reporting `0`. -/
theorem c4_zero_chunks (index : List VecEntry) (uid q ct : String) (k : Nat)
    (g g' : GenOutcome) (h : search_content index uid ct k true = []) :
    (ask_question index uid q ct k true g).success = false
    ∧ (ask_question index uid q ct k true g).answer
        = "I couldn't find any relevant " ++ ct ++
          " to answer your question. Please try rephrasing your question or check if you have content indexed."
    ∧ (ask_question index uid q ct k true g).context_used = none
    ∧ ask_question index uid q ct k true g = ask_question index uid q ct k true g' := by
  unfold ask_question
  simp [h]

/-- Witness for `c4_zero_chunks` at a concrete (empty-retrieval) input. -/
theorem c4_zero_chunks_witness :
    search_content [] "u" "emails" 5 true = []
    ∧ (ask_question [] "u" "q" "emails" 5 true (.ok "a")).success = false :=
  ⟨rfl, (c4_zero_chunks [] "u" "q" "emails" 5 (.ok "a") (.err "x") rfl).1⟩

/-! ## Claim C6: extractor failure fallback -/

/-- Claim C6: whenever the extraction model call fails, or its output
cannot be parsed even after the fixing parser's single schema-repair
attempt, `extract_tasks` returns exactly the all-false/empty default
result — with `should_log`/`should_create` false, empty strings and absent
due dates — never raising and never returning partially-parsed data (the
only non-default outcome is a fully schema-conforming parse). -/
theorem c6_extract_tasks_default (note_text : String) (notes : List SimilarNote)
    (o : ExtractOutcome) (h : ∀ r, o ≠ ExtractOutcome.parsed r) :
    extract_tasks note_text notes o = get_default_task_result
    ∧ get_default_task_result.diary.should_log = false
    ∧ get_default_task_result.calendar.should_create = false
    ∧ get_default_task_result.reminder.should_create = false
    ∧ get_default_task_result.diary.content = ""
    ∧ get_default_task_result.calendar.title = ""
    ∧ get_default_task_result.calendar.description = ""
    ∧ get_default_task_result.reminder.title = ""
    ∧ get_default_task_result.reminder.description = ""
    ∧ get_default_task_result.calendar.due_date = none
    ∧ get_default_task_result.reminder.due_date = none := by
  refine ⟨?_, rfl, rfl, rfl, rfl, rfl, rfl, rfl, rfl, rfl, rfl⟩
  cases o with
  | callFailed => rfl
  | parseFailed => rfl
  | parsed r => exact absurd rfl (h r)

/-- Witness for `c6_extract_tasks_default` on a failed model call. -/
theorem c6_extract_tasks_default_witness :
    (∀ r, ExtractOutcome.callFailed ≠ ExtractOutcome.parsed r)
    ∧ extract_tasks "buy milk tomorrow" [] ExtractOutcome.callFailed
        = get_default_task_result :=
  ⟨fun _ h => ExtractOutcome.noConfusion h,
    (c6_extract_tasks_default "buy milk tomorrow" [] ExtractOutcome.callFailed
      (fun _ h => ExtractOutcome.noConfusion h)).1⟩

/-! ## Claim C7: relationship strength filtering -/

/-- Claim C7 counterexample: `find_idea_relationships` applies no
strength filter in code (the threshold lives only in the prompt text), so
a parsed model output containing strengths `0.1` and `1.5` is returned
as-is, refuting the claim that every returned relationship has strength in
`[0, 1]` and strictly above `0.3`. -/
theorem c7_counterexample :
    ∃ rel ∈ find_idea_relationships "new idea" [{ id := 1, content := "old idea" }]
        (RelOutcome.parsed
          [{ target_idea_id := 2, relationship_type := "similar",
             strength := 1/10, reasoning := "weak" },
           { target_idea_id := 3, relationship_type := "similar",
             strength := 3/2, reasoning := "strong" }]),
      ¬((0 : Rat) ≤ rel.strength ∧ rel.strength ≤ 1 ∧ (3 : Rat)/10 < rel.strength) := by
  refine ⟨{ target_idea_id := 2, relationship_type := "similar",
            strength := 1/10, reasoning := "weak" }, ?_, ?_⟩
  · simp [find_idea_relationships]
  · intro hc
    have h3 := hc.2.2
    norm_num at h3

/-- Claim C7 (amended): `find_idea_relationships` returns exactly the
schema-parsed model output, unfiltered — no strength-threshold, range or
self-loop check is performed in code — while call/parse failures and an
empty existing-ideas list yield the empty list (whole-list discard, not
per-element). -/
theorem c7_relationships_unfiltered (ni : String) (ideas : List IdeaNode)
    (rels : List IdeaRelationship) (h : ideas ≠ []) :
    find_idea_relationships ni ideas (RelOutcome.parsed rels) = rels
    ∧ find_idea_relationships ni ideas RelOutcome.callFailed = []
    ∧ find_idea_relationships ni ideas RelOutcome.parseFailed = []
    ∧ (∀ o, find_idea_relationships ni [] o = []) := by
  have hne : ideas.isEmpty = false := by
    simpa [List.isEmpty_iff] using h
  refine ⟨?_, ?_, ?_, fun o => ?_⟩ <;>
    simp [find_idea_relationships, hne]

/-- Witness for `c7_relationships_unfiltered` at a concrete below-threshold
relationship that passes through. -/
theorem c7_relationships_unfiltered_witness :
    ([{ id := 1, content := "c" }] : List IdeaNode) ≠ []
    ∧ find_idea_relationships "n" [{ id := 1, content := "c" }]
        (RelOutcome.parsed
          [{ target_idea_id := 5, relationship_type := "similar",
             strength := 1/10, reasoning := "r" }])
        = [{ target_idea_id := 5, relationship_type := "similar",
             strength := 1/10, reasoning := "r" }] :=
  ⟨by decide,
    (c7_relationships_unfiltered "n" [{ id := 1, content := "c" }]
      [{ target_idea_id := 5, relationship_type := "similar",
         strength := 1/10, reasoning := "r" }] (by decide)).1⟩

/-! ## Claim C9: chunker fallback -/

/-- Claim C9 counterexample: for an input of 501 characters the fallback
chunk text is the 500-character prefix with `"..."` appended (503
characters), not the first 500 characters of the input as claimed. -/
theorem c9_counterexample :
    (fallback_chunk ((List.replicate 501 'a').asString)).chunk_text
      ≠ pySlice ((List.replicate 501 'a').asString) 500 := by
  have hdata : ∀ l : List Char, (l.asString).data = l := fun l => List.toList_asString l
  have hslen : ((List.replicate 501 'a').asString).length = 501 := by
    show ((List.replicate 501 'a').asString).data.length = 501
    rw [hdata, List.length_replicate]
  have h2 : (pySlice ((List.replicate 501 'a').asString) 500).length = 500 := by
    show ((((List.replicate 501 'a').asString).data.take 500).asString).data.length = 500
    rw [hdata, hdata, List.length_take, List.length_replicate]
    omega
  have h1 : (fallback_chunk ((List.replicate 501 'a').asString)).chunk_text.length = 503 := by
    simp only [fallback_chunk]
    rw [if_pos (by omega)]
    rw [String.length_append, h2]
    rfl
  intro h
  have hl := congrArg String.length h
  omega

/-- Claim C9 (amended): on any call or parse failure the chunker falls
back to exactly one chunk tagged `fallback_summary` whose text is the
first 500 characters of the input followed by an ellipsis when the input
exceeds 500 characters, and the whole input otherwise; consequently the
failure path of semantic chunking always terminates with exactly one chunk
for non-blank input. -/
theorem c9_fallback_single_chunk (t eid : String) (clean : String → String)
    (sha256 : String → String) (hb : isBlank t = false) :
    (summarize_chunk_text t ChunkLLMOutcome.failed).length = 1
    ∧ (∀ ca ∈ summarize_chunk_text t ChunkLLMOutcome.failed,
        ca.chunk_type = "fallback_summary"
        ∧ ca.chunk_text = (if t.length > 500 then pySlice t 500 ++ "..." else t))
    ∧ (chunk_text t eid clean ChunkLLMOutcome.failed sha256).length = 1 := by
  refine ⟨rfl, ?_, ?_⟩
  · intro ca hca
    simp only [summarize_chunk_text, List.mem_singleton] at hca
    subst hca
    exact ⟨rfl, rfl⟩
  · simp [chunk_text, hb, convert_chunks, summarize_chunk_text]

/-- Witness for `c9_fallback_single_chunk` at a concrete short input. -/
theorem c9_fallback_single_chunk_witness :
    isBlank "hello" = false
    ∧ (chunk_text "hello" "e1" (fun s => s) ChunkLLMOutcome.failed (fun s => s)).length = 1 :=
  ⟨by decide,
    (c9_fallback_single_chunk "hello" "e1" (fun s => s) (fun s => s) (by decide)).2.2⟩

/-! ## Claim C10: chunk-id determinism and uniqueness -/

theorem chunk_ids_get? (s : String → String) (e : String) (as : List ChunkAnalysis)
    (i : Nat) :
    (chunk_ids s e as).get? i
      = (as.get? i).map (fun ca => s (chunk_id_preimage ca.chunk_text i)) := by
  cases hgi : as.get? i with
  | none =>
    have hlen : as.length ≤ i := List.get?_eq_none.mp hgi
    have hlen2 : (chunk_ids s e as).length ≤ i := by
      simpa [chunk_ids, convert_chunks] using hlen
    rw [List.get?_eq_none.mpr hlen2]
    rfl
  | some a =>
    simp only [chunk_ids, convert_chunks, List.get?_map, List.get?_enum, hgi,
      Option.map_map, Option.map_some']

/-- Claim C10: chunk ids are the SHA-256 digest of the chunk text joined
with its 0-based position by an underscore, so (determinism) the id at a
position depends only on the chunk text there — identical content at the
same position yields the identical id across runs and documents — and
(uniqueness, assuming the hash injective on the preimages used, i.e.
collision-free) chunks of one document at different positions always
receive different ids, because decimal position representations contain no
underscore and `Nat.repr` is injective. -/
theorem c10_chunk_ids_deterministic_unique (sha256 : String → String)
    (hinj : Function.Injective sha256) (eid eid' : String)
    (as as' : List ChunkAnalysis) :
    (∀ i a a', as.get? i = some a → as'.get? i = some a' →
        a.chunk_text = a'.chunk_text →
        (chunk_ids sha256 eid as).get? i = (chunk_ids sha256 eid' as').get? i)
    ∧ (∀ i j ci cj, i ≠ j →
        (chunk_ids sha256 eid as).get? i = some ci →
        (chunk_ids sha256 eid as).get? j = some cj →
        ci ≠ cj) := by
  constructor
  · intro i a a' ha ha' htext
    rw [chunk_ids_get?, chunk_ids_get?, ha, ha']
    simp only [Option.map_some']
    rw [htext]
  · intro i j ci cj hij hci hcj
    rw [chunk_ids_get?] at hci hcj
    cases hgi : as.get? i with
    | none => rw [hgi] at hci; simp at hci
    | some a =>
      cases hgj : as.get? j with
      | none => rw [hgj] at hcj; simp at hcj
      | some b =>
        rw [hgi] at hci
        rw [hgj] at hcj
        simp only [Option.map_some', Option.some_inj] at hci hcj
        subst hci
        subst hcj
        intro heq
        exact hij (chunk_id_preimage_inj _ _ _ _ (hinj heq)).2

/-- Witness for `c10_chunk_ids_deterministic_unique` with the identity
hash on two concrete chunks. -/
theorem c10_chunk_ids_witness : (0 : Nat) ≠ 1 ∧ ("x_0" : String) ≠ "y_1" :=
  ⟨by decide,
    (c10_chunk_ids_deterministic_unique (fun s => s) (fun _ _ h => h) "e" "e"
      [{ chunk_text := "x", is_promotional := false, timeline := "", action_items := [],
         tags := [], importance_score := 5, chunk_type := "summary" },
       { chunk_text := "y", is_promotional := false, timeline := "", action_items := [],
         tags := [], importance_score := 5, chunk_type := "summary" }]
      [{ chunk_text := "x", is_promotional := false, timeline := "", action_items := [],
         tags := [], importance_score := 5, chunk_type := "summary" },
       { chunk_text := "y", is_promotional := false, timeline := "", action_items := [],
         tags := [], importance_score := 5, chunk_type := "summary" }]).2
      0 1 "x_0" "y_1" (by decide) (by decide) (by decide)⟩

/-! ## Claim C5: partial failure during email embedding -/

theorem store_chunks_append_fail (e : Email) (env : EmailEnv) (total : Nat)
    (pre : List Chunk) (bad : Chunk) (post : List Chunk) (err : String)
    (hpre : ∀ c ∈ pre, env.storeFail (vector_id e c) = none)
    (hbad : env.storeFail (vector_id e bad) = some err) :
    ∀ st : SyncState,
      store_chunks e env total st (pre ++ bad :: post)
        = ({ st with pinecone := st.pinecone ++ pre.map (vector_id e) },
           { success := false, message := "Error storing chunk embedding: " ++ err }) := by
  induction pre with
  | nil =>
    intro st
    simp [store_chunks, store_chunk_embedding, hbad]
  | cons c cs ih =>
    intro st
    have hc : env.storeFail (vector_id e c) = none := hpre c (List.mem_cons_self c cs)
    have ih2 := ih (fun c' hc' => hpre c' (List.mem_cons_of_mem c hc'))
    simp only [List.cons_append, store_chunks, store_chunk_embedding, hc, List.append_eq]
    rw [if_pos trivial, ih2]
    simp

/-- Claim C5 counterexample: with a three-chunk email whose second chunk
fails to store, the response `sync_emails` hands the caller is literally
identical to the all-success response — a bare success with a generic
message, listing no succeeded or failed units — even though only the first
chunk's vector was persisted (the third was skipped).  The claimed
structured partial-success surfacing does not exist. -/
theorem c5_counterexample :
    (sync_emails fixtureUser gmailFix emptyState envFail 10).2
      = (sync_emails fixtureUser gmailFix emptyState envOk 10).2
    ∧ (sync_emails fixtureUser gmailFix emptyState envFail 10).2
      = { success := true, message := "Emails synced to Supabase and Pinecone" }
    ∧ (sync_emails fixtureUser gmailFix emptyState envFail 10).1.pinecone
      = ["email_e1_chunk_c1"]
    ∧ (sync_emails fixtureUser gmailFix emptyState envOk 10).1.pinecone
      = ["email_e1_chunk_c1", "email_e1_chunk_c2", "email_e1_chunk_c3"] := by
  refine ⟨rfl, rfl, rfl, rfl⟩

/-- Claim C5 (amended): when one chunk of an email fails at the
embedding/storage step, the chunks stored before it stay persisted, later
chunks of that email are skipped, and no exception propagates:
`_process_email_embeddings` converts the failure into a structured
failure response — but that response is discarded by the batch layer,
whose own response depends only on the Supabase insert, and `sync_emails`
reports plain success for every nonzero batch size (a zero batch size
fails on `range` before batching, independently of any chunk outcome), so
no structured list of succeeded/failed units reaches the caller. -/
theorem c5_chunk_store_failure_swallowed (u : User) (st : SyncState) (env : EmailEnv)
    (e : Email) (pre : List Chunk) (bad : Chunk) (post : List Chunk) (err : String)
    (hblank : isBlank e.content = false)
    (hchunks : env.chunksOf e = pre ++ bad :: post)
    (hpre : ∀ c ∈ pre, env.storeFail (vector_id e c) = none)
    (hbad : env.storeFail (vector_id e bad) = some err) :
    process_email_embeddings e st env
      = ({ st with pinecone := st.pinecone ++ pre.map (vector_id e) },
         { success := false, message := "Error storing chunk embedding: " ++ err })
    ∧ (∀ emails, env.insertFail emails = none →
        (sync_batch_to_supabase_and_pinecone emails u st env).2
          = { success := true, message := "Emails synced to Supabase and Pinecone" })
    ∧ (∀ gmail bs, bs ≠ 0 → (sync_emails u gmail st env bs).2.success = true) := by
  refine ⟨?_, ?_, ?_⟩
  · have h := store_chunks_append_fail e env (env.chunksOf e).length pre bad post err
      hpre hbad st
    simp only [process_email_embeddings, hblank, Bool.false_eq_true, if_false]
    rw [hchunks] at h ⊢
    exact h
  · intro emails hins
    unfold sync_batch_to_supabase_and_pinecone
    by_cases hemp : emails.isEmpty <;> simp [hemp, hins]
  · intro gmail bs hbs
    unfold sync_emails
    by_cases hemp :
        ((get_new_emails gmail (existing_email_ids u st)).map (parse_email u)).isEmpty <;>
      simp [hemp, hbs]

/-- Witness for `c5_chunk_store_failure_swallowed` at the concrete fixtures. -/
theorem c5_chunk_store_failure_swallowed_witness :
    isBlank fixEmail.content = false
    ∧ (10 : Nat) ≠ 0
    ∧ (process_email_embeddings fixEmail emptyState envFail).2.success = false
    ∧ (sync_emails fixtureUser gmailFix emptyState envFail 10).2.success = true := by
  have h := c5_chunk_store_failure_swallowed fixtureUser emptyState envFail fixEmail
    [fixChunk "c1"] (fixChunk "c2") [fixChunk "c3"] "boom"
    (by decide) rfl (by decide) (by decide)
  exact ⟨by decide, by decide, by rw [h.1], h.2.2 gmailFix 10 (by decide)⟩

/-! ## Claim C8: idempotent email re-ingestion -/

/-- Claim C8: email ingestion is idempotent per owner-scoped email id —
every fetched message whose id is already stored for that owner is dropped
by the dedup step before any chunking/embedding, and when everything
fetched is already stored, `sync_emails` is a no-op that leaves the state
(in particular the stored email count) unchanged and reports success, not
an error. -/
theorem c8_email_resync_idempotent (u : User) (st : SyncState) (env : EmailEnv)
    (gmail : List EmailMsg) (bs : Nat)
    (hall : ∀ m ∈ gmail, m.id ∈ existing_email_ids u st) :
    (∀ m ∈ gmail, m ∉ get_new_emails gmail (existing_email_ids u st))
    ∧ sync_emails u gmail st env bs
        = (st, { success := true, message := "No new emails found in Gmail" })
    ∧ (sync_emails u gmail st env bs).1.emailRows.length = st.emailRows.length := by
  have hexcl : ∀ m ∈ gmail, m ∉ get_new_emails gmail (existing_email_ids u st) := by
    intro m hm hmem
    have hid := hall m hm
    unfold get_new_emails at hmem
    split at hmem
    · next hemp =>
      rw [List.isEmpty_iff.mp hemp] at hid
      exact absurd hid (List.not_mem_nil m.id)
    · have hf := List.of_mem_filter hmem
      have hc : (existing_email_ids u st).contains m.id = true :=
        List.elem_eq_true_of_mem hid
      rw [hc] at hf
      simp at hf
  have hempty : get_new_emails gmail (existing_email_ids u st) = [] := by
    cases hg : get_new_emails gmail (existing_email_ids u st) with
    | nil => rfl
    | cons m ms =>
      have hin : m ∈ get_new_emails gmail (existing_email_ids u st) := by
        rw [hg]; exact List.mem_cons_self m ms
      have hgm : m ∈ gmail := by
        unfold get_new_emails at hin
        split at hin
        · exact hin
        · exact List.mem_of_mem_filter hin
      exact absurd hin (hexcl m hgm)
  have hsync : sync_emails u gmail st env bs
      = (st, { success := true, message := "No new emails found in Gmail" }) := by
    unfold sync_emails
    simp [hempty]
  exact ⟨hexcl, hsync, by rw [hsync]⟩

/-- Witness for `c8_email_resync_idempotent`: re-syncing the one already
stored email is a no-op. -/
theorem c8_email_resync_idempotent_witness :
    (∀ m ∈ gmailFix, m.id ∈ existing_email_ids fixtureUser stateWithE1)
    ∧ sync_emails fixtureUser gmailFix stateWithE1 envOk 10
        = (stateWithE1, { success := true, message := "No new emails found in Gmail" }) :=
  ⟨by decide,
    (c8_email_resync_idempotent fixtureUser stateWithE1 envOk gmailFix 10 (by decide)).2.1⟩

end LifeOS
